import Mathlib

/-!
Lorenz particle system: verification development.

A shallow embedding of `ParticleSystem/ParticleSystemApp.cpp` and of the helper
templates of `Framework/ShaderSet.h`.

* `s32` values are integers; every arithmetic or bitwise operation goes through
  the 32-bit two's-complement bit pattern (`toBits32` / `ofBits32`), so that
  overflow wraps modulo `2^32`.
* `u32` / `UINT` values are naturals reduced modulo `2^32`.
* `f32` values live in an exact field `F` (rounding is not modelled); the
  library functions `sinf`, `cosf` are passed in.
* Direct3D calls made on the immediate context are recorded as a list of
  commands; a small interpreter gives the commands their effect on the three
  particle buffers.
* Direct3D object creation is an oracle `Device` that answers every creation
  call site with an `HRESULT` and a (possibly null) pointer.
-/

namespace Lorenz

/-! ## Machine integers -/

/-- The 32-bit two's-complement bit pattern of an integer. -/
def toBits32 (x : Int) : Nat := (x % 4294967296).toNat

/-- The signed value of a 32-bit pattern. -/
def ofBits32 (b : Nat) : Int :=
  if b < 2147483648 then (b : Int) else (b : Int) - 4294967296

/-- Reduction of a natural number to `u32`. -/
def u32 (x : Nat) : Nat := x % 4294967296

/-- Addition `a + b` on `s32`. -/
def s32_add (a b : Int) : Int := ofBits32 (toBits32 (a + b))

/-- Subtraction `a - b` on `s32`. -/
def s32_sub (a b : Int) : Int := ofBits32 (toBits32 (a - b))

/-- Multiplication `a * b` on `s32`. -/
def s32_mul (a b : Int) : Int := ofBits32 (toBits32 (a * b))

/-- Bitwise complement `~a` on `s32`. -/
def s32_not (a : Int) : Int := ofBits32 (4294967295 - toBits32 a)

/-- Bitwise conjunction `a & b` on `s32`. -/
def s32_and (a b : Int) : Int := ofBits32 (toBits32 a &&& toBits32 b)

/-- The values an `s32` can hold. -/
def inS32 (x : Int) : Prop := -2147483648 ≤ x ∧ x ≤ 2147483647

instance (x : Int) : Decidable (inS32 x) := by
  unfold inS32
  exact inferInstance

/-! ## `align` (ParticleSystemApp.cpp, lines 9-13) -/

/-- Helper function for aligning particles on 256 thread boundary:
`(num + (alignment - 1)) & ~(alignment - 1)`. -/
def align (num alignment : Int) : Int :=
  s32_and (s32_add num (s32_sub alignment 1)) (s32_not (s32_sub alignment 1))

/-- The relation "`m` is `n` rounded up to the nearest multiple of `a`": `m` is
a multiple of `a` with `n ≤ m < n + a`. -/
def IsRoundedUp (a n m : Int) : Prop := a ∣ m ∧ n ≤ m ∧ m < n + a

instance (a n m : Int) : Decidable (IsRoundedUp a n m) := by
  unfold IsRoundedUp
  exact inferInstance

/-! ## Data model (ParticleSystemApp.cpp, lines 18-41) -/

/-- Two-component vector. -/
structure v2 (F : Type) where
  x : F
  y : F

/-- Three-component vector. -/
structure v3 (F : Type) where
  x : F
  y : F
  z : F

/-- Scalar times vector, `s * v`. -/
def v2.smul {F : Type} [Mul F] (s : F) (v : v2 F) : v2 F := ⟨s * v.x, s * v.y⟩

/-- Scalar times vector, `s * v`. -/
def v3.smul {F : Type} [Mul F] (s : F) (v : v3 F) : v3 F := ⟨s * v.x, s * v.y, s * v.z⟩

/-- Component-wise sum of two vectors. -/
def v3.add {F : Type} [Add F] (a b : v3 F) : v3 F := ⟨a.x + b.x, a.y + b.y, a.z + b.z⟩

/-- The squared Euclidean length of a vector. -/
def v3.normSq {F : Type} [Add F] [Mul F] (v : v3 F) : F := v.x * v.x + v.y * v.y + v.z * v.z

/-- A 4x4 matrix. -/
def m4x4 (F : Type) : Type := Fin 4 → Fin 4 → F

/-- Matrix transposition. -/
def m4x4.Transpose {F : Type} (m : m4x4 F) : m4x4 F := fun i j => m j i

/-- A particle record. -/
structure Particle (F : Type) where
  m_position : v3 F
  m_age : F
  m_velocity : v3 F

/-- The simulation constant-buffer record. -/
structure SimulationParameters (F : Type) where
  m_emitterLocation : v3 F
  m_sigma : F
  m_rho : F
  m_beta : F
  m_particleCount : Nat

/-- The per-frame constant-buffer record. -/
structure PerFrameCBData (F : Type) where
  m_matView : m4x4 F
  m_matProjection : m4x4 F
  m_particleColour : v3 F
  m_deltaTime : F
  m_streak : Bool

/-- The capacity `m_maxNumParticles`. -/
def m_maxNumParticles : Nat := 500000

/-! ## Direct3D objects -/

/-- A non-null object pointer handed out by the device. -/
abbrev Handle := Nat

/-- An `HRESULT`. -/
abbrev HRESULT := Int

/-- The `FAILED` test on an `HRESULT`: negative codes are failures. -/
def FAILED (hr : HRESULT) : Bool := decide (hr < 0)

/-- The blend factors used by the application. -/
inductive D3D11_BLEND where
  | D3D11_BLEND_ZERO
  | D3D11_BLEND_ONE
  | D3D11_BLEND_SRC_ALPHA
  | D3D11_BLEND_INV_SRC_ALPHA
  deriving DecidableEq, Repr

/-- The blend operation used by the application. -/
inductive D3D11_BLEND_OP where
  | D3D11_BLEND_OP_ADD
  deriving DecidableEq, Repr

/-- The blend description of one render target. -/
structure D3D11_RENDER_TARGET_BLEND_DESC where
  BlendEnable : Bool
  SrcBlend : D3D11_BLEND
  DestBlend : D3D11_BLEND
  BlendOp : D3D11_BLEND_OP
  SrcBlendAlpha : D3D11_BLEND
  DestBlendAlpha : D3D11_BLEND
  BlendOpAlpha : D3D11_BLEND_OP
  RenderTargetWriteMask : Nat
  deriving DecidableEq, Repr

/-- The blend description; only render target 0 is filled in by the
application. -/
structure D3D11_BLEND_DESC where
  AlphaToCoverageEnable : Bool
  IndependentBlendEnable : Bool
  RenderTarget0 : D3D11_RENDER_TARGET_BLEND_DESC
  deriving DecidableEq, Repr

/-- The mask `D3D11_COLOR_WRITE_ENABLE_ALL`. -/
def D3D11_COLOR_WRITE_ENABLE_ALL : Nat := 15

/-- The blend description that `on_init` fills in (lines 180-190) and passes to
`CreateBlendState` for `m_pAdditiveBlendState`. -/
def blendDesc : D3D11_BLEND_DESC :=
  { AlphaToCoverageEnable := false
    IndependentBlendEnable := false
    RenderTarget0 :=
      { RenderTargetWriteMask := D3D11_COLOR_WRITE_ENABLE_ALL
        BlendEnable := true
        SrcBlend := D3D11_BLEND.D3D11_BLEND_SRC_ALPHA
        DestBlend := D3D11_BLEND.D3D11_BLEND_INV_SRC_ALPHA
        BlendOp := D3D11_BLEND_OP.D3D11_BLEND_OP_ADD
        SrcBlendAlpha := D3D11_BLEND.D3D11_BLEND_ZERO
        DestBlendAlpha := D3D11_BLEND.D3D11_BLEND_ZERO
        BlendOpAlpha := D3D11_BLEND_OP.D3D11_BLEND_OP_ADD } }

/-- The value of a blend factor for a source pixel of alpha `srcAlpha`
(output-merger stage of Direct3D 11). -/
def blendFactor {F : Type} [Field F] (b : D3D11_BLEND) (srcAlpha : F) : F :=
  match b with
  | D3D11_BLEND.D3D11_BLEND_ZERO => 0
  | D3D11_BLEND.D3D11_BLEND_ONE => 1
  | D3D11_BLEND.D3D11_BLEND_SRC_ALPHA => srcAlpha
  | D3D11_BLEND.D3D11_BLEND_INV_SRC_ALPHA => 1 - srcAlpha

/-- The colour that the output merger writes to one channel of render target 0:
the source colour `src` (of alpha `srcAlpha`) combined with the destination
colour `dst` already in the target. -/
def blendColour {F : Type} [Field F] (d : D3D11_RENDER_TARGET_BLEND_DESC)
    (src srcAlpha dst : F) : F :=
  if d.BlendEnable then
    match d.BlendOp with
    | D3D11_BLEND_OP.D3D11_BLEND_OP_ADD =>
      src * blendFactor d.SrcBlend srcAlpha + dst * blendFactor d.DestBlend srcAlpha
  else src

/-! ## Object creation (ShaderSet.h, lines 73-195) -/

/-- The call sites of `ID3D11Device::CreateBuffer`. -/
inductive BufferSite where
  | PerFrame_CB
  | SimulationParameters_CB
  | OldParticleBuffer
  | UpdatedParticleBuffer
  | RenderParticleBuffer
  | IndexBuffer
  deriving DecidableEq, Repr

/-- The call sites of `ID3D11Device::CreateShaderResourceView`. -/
inductive SRVSite where
  | RenderParticleBuffer_SRV
  | OldParticleBuffer_SRV
  deriving DecidableEq, Repr

/-- What a creation call hands back: the `HRESULT` and the out-pointer
(`none` is the null pointer). -/
abbrev Created := HRESULT × Option Handle

/-- The device: the answer it gives at every creation call site. -/
structure Device where
  CreateBuffer : BufferSite → Created
  CreateShaderResourceView : SRVSite → Option Handle → Created
  CreateUnorderedAccessView : Option Handle → Created
  CreateSamplerState : Created
  CreateBlendState : D3D11_BLEND_DESC → Created
  CreateDepthStencilState : Created

/-- The fatal initialisation error. -/
inductive Fatal where
  | assertionFailed
  deriving DecidableEq, Repr

/-- Modelled from the spec: the framework macro `ASSERT` is not part of the
sources; following "a non-success result is treated as a fatal initialization
error (the process should not continue with a null resource)", a false
condition stops the run with a fatal error. -/
def ASSERT (cond : Bool) : Except Fatal Unit :=
  if cond then Except.ok () else Except.error Fatal.assertionFailed

/-- Template `create_constant_buffer` (ShaderSet.h, lines 74-91). -/
def create_constant_buffer (pDevice : Device) (site : BufferSite) :
    Except Fatal (Option Handle) := do
  let (hr, pBuffer) := pDevice.CreateBuffer site
  ASSERT (!FAILED hr && pBuffer.isSome)
  return pBuffer

/-- Template `create_default_structured_buffer` (ShaderSet.h, lines 125-142). -/
def create_default_structured_buffer (pDevice : Device) (site : BufferSite) :
    Except Fatal (Option Handle) := do
  let (hr, pBuffer) := pDevice.CreateBuffer site
  ASSERT (!FAILED hr && pBuffer.isSome)
  return pBuffer

/-- Function `create_structured_buffer_SRV` (ShaderSet.h, lines 144-157). -/
def create_structured_buffer_SRV (pDevice : Device) (site : SRVSite)
    (pBuffer : Option Handle) : Except Fatal (Option Handle) := do
  let (hr, pView) := pDevice.CreateShaderResourceView site pBuffer
  ASSERT (!FAILED hr && pView.isSome)
  return pView

/-- Function `create_structured_buffer_UAV` (ShaderSet.h, lines 160-175). -/
def create_structured_buffer_UAV (pDevice : Device)
    (pBuffer : Option Handle) : Except Fatal (Option Handle) := do
  let (hr, pBuffer_UAV) := pDevice.CreateUnorderedAccessView pBuffer
  ASSERT (!FAILED hr && pBuffer_UAV.isSome)
  return pBuffer_UAV

/-- Function `create_basic_sampler` (ShaderSet.h, lines 179-195). -/
def create_basic_sampler (pDevice : Device) : Except Fatal (Option Handle) := do
  let (hr, pSampler) := pDevice.CreateSamplerState
  ASSERT (!FAILED hr && pSampler.isSome)
  return pSampler

/-! ## The application object (ParticleSystemApp.cpp, lines 15-102) -/

/-- The members of `ParticleSystemApp`. -/
structure App (F : Type) where
  m_perFrameCBData : PerFrameCBData F
  m_pPerFrame_CB : Option Handle
  m_simulationParameters : SimulationParameters F
  m_pSimulationParameters_CB : Option Handle
  m_OldParticles : List (Particle F)
  m_pOldParticleBuffer : Option Handle
  m_pOldParticleBuffer_SRV : Option Handle
  m_UpdatedParticles : List (Particle F)
  m_pUpdatedParticleBuffer : Option Handle
  m_pUpdatedParticleBuffer_UAV : Option Handle
  m_RenderParticles : List (Particle F)
  m_pRenderParticleBuffer : Option Handle
  m_pRenderParticleBuffer_SRV : Option Handle
  m_Indices : List Nat
  m_pIndexBuffer : Option Handle
  m_pLinearMipSamplerState : Option Handle
  m_pAdditiveBlendState : Option Handle
  m_pDisabledDepthTestState : Option Handle
  m_frameTime : F
  m_elapsedTime : F
  m_speed : F
  m_particleCount : Int
  m_randomColour : Bool
  m_streak : Bool
  m_particleColour : v3 F

/-- The constructor (lines 43-47) together with the in-class initialisers: all
pointers are null, the vectors are empty, three scalars are set; the members
the constructor does not touch keep the value `indeterminate` gives them. -/
def App.construct {F : Type} [Field F] (indeterminate : App F) : App F :=
  { indeterminate with
    m_pPerFrame_CB := none
    m_pSimulationParameters_CB := none
    m_OldParticles := []
    m_pOldParticleBuffer := none
    m_pOldParticleBuffer_SRV := none
    m_UpdatedParticles := []
    m_pUpdatedParticleBuffer := none
    m_pUpdatedParticleBuffer_UAV := none
    m_RenderParticles := []
    m_pRenderParticleBuffer := none
    m_pRenderParticleBuffer_SRV := none
    m_Indices := []
    m_pIndexBuffer := none
    m_pLinearMipSamplerState := none
    m_pAdditiveBlendState := none
    m_pDisabledDepthTestState := none
    m_elapsedTime := 0
    m_frameTime := 1 / 60
    m_speed := 1 }

/-- The random number generator of the framework: the value returned by the
`k`-th call of `randf` and of `randv3`. -/
structure RandomSource (F : Type) where
  randf : Nat → F
  randv3 : Nat → v3 F

/-- The call `std::vector::resize(n)` on a vector of value-initialised
elements. -/
def vector_resize {α : Type} (zero : α) (v : List α) (n : Nat) : List α :=
  v.take n ++ List.replicate (n - v.length) zero

/-- Method `init_particle_buffers` (lines 336-399). -/
def init_particle_buffers {F : Type} [Field F] (pDevice : Device) (rng : RandomSource F)
    (app : App F) : Except Fatal (App F) := do
  let N := m_maxNumParticles
  let m_OldParticles := (List.range N).map fun i =>
    ({ m_position := v3.smul 10 (rng.randv3 (2 * i))
       m_velocity := rng.randv3 (2 * i + 1)
       m_age := 20 * (rng.randf i + 1) / 2 } : Particle F)
  let m_pOldParticleBuffer ←
    create_default_structured_buffer pDevice BufferSite.OldParticleBuffer
  let m_UpdatedParticles := (List.range N).map fun i =>
    ({ m_position := v3.smul 5 (rng.randv3 (2 * N + i))
       m_velocity := ⟨0, 0, 0⟩
       m_age := 20 * (rng.randf (N + i) + 1) / 2 } : Particle F)
  let m_pUpdatedParticleBuffer ←
    create_default_structured_buffer pDevice BufferSite.UpdatedParticleBuffer
  let m_RenderParticles := (List.range N).map fun i =>
    ({ m_position := v3.smul 5 (rng.randv3 (3 * N + i))
       m_velocity := ⟨0, 0, 0⟩
       m_age := 20 * (rng.randf (2 * N + i) + 1) / 2 } : Particle F)
  let m_pRenderParticleBuffer ←
    create_default_structured_buffer pDevice BufferSite.RenderParticleBuffer
  return { app with
    m_OldParticles := m_OldParticles
    m_pOldParticleBuffer := m_pOldParticleBuffer
    m_UpdatedParticles := m_UpdatedParticles
    m_pUpdatedParticleBuffer := m_pUpdatedParticleBuffer
    m_RenderParticles := m_RenderParticles
    m_pRenderParticleBuffer := m_pRenderParticleBuffer }

/-- The body of the loop of `init_index_buffer` (lines 410-415), for the loop
counter `i`; all index arithmetic is `UINT` arithmetic. -/
def init_index_buffer_body (i : Nat) (m_Indices : List Nat) : List Nat :=
  (((((m_Indices.set (u32 (6 * i)) (u32 (4 * i))).set
    (u32 (6 * i + 1)) (u32 (4 * i + 1))).set
    (u32 (6 * i + 2)) (u32 (4 * i + 2))).set
    (u32 (6 * i + 3)) (u32 (4 * i))).set
    (u32 (6 * i + 4)) (u32 (4 * i + 2))).set
    (u32 (6 * i + 5)) (u32 (4 * i + 3))

/-- The index data of `init_index_buffer` (lines 405-416) for a capacity of
`maxNumParticles`: the vector is resized, then the loop runs over
`i = 0 .. maxNumParticles - 1`. -/
def init_index_buffer_fill (maxNumParticles : Nat) (m_Indices : List Nat) : List Nat :=
  (List.range maxNumParticles).foldl (fun acc i => init_index_buffer_body i acc)
    (vector_resize 0 m_Indices (u32 (6 * maxNumParticles)))

/-- Method `init_index_buffer` (lines 401-437): the index data is filled in,
the buffer is created, and the member pointer is assigned only when the
creation succeeded. -/
def init_index_buffer {F : Type} (pDevice : Device) (app : App F) : App F :=
  let m_Indices := init_index_buffer_fill m_maxNumParticles app.m_Indices
  let (hr, pIndexBuffer) := pDevice.CreateBuffer BufferSite.IndexBuffer
  if !FAILED hr && pIndexBuffer.isSome then
    { app with m_Indices := m_Indices, m_pIndexBuffer := pIndexBuffer }
  else
    { app with m_Indices := m_Indices }

/-- Method `on_init` (lines 121-217). The locals `frameData` and `simParams`
are declared without an initialiser, so their contents are whatever the
caller supplies here. The camera set-up, the shader compilation and the
texture load belong to the framework and are left out. -/
def on_init {F : Type} [Field F] (pDevice : Device) (rng : RandomSource F)
    (frameData : PerFrameCBData F) (simParams : SimulationParameters F)
    (app : App F) : Except Fatal (App F) := do
  let app := { app with
    m_perFrameCBData := { frameData with m_particleColour := ⟨0, 255, 0⟩ } }
  let app := { app with
    m_simulationParameters :=
      { simParams with m_sigma := 17683 / 1000, m_rho := 25, m_beta := 16666 / 10000 }
    m_particleCount := (m_maxNumParticles : Int)
    m_speed := 1 / 2
    m_randomColour := true
    m_streak := true }
  let pPerFrame ← create_constant_buffer pDevice BufferSite.PerFrame_CB
  let pSim ← create_constant_buffer pDevice BufferSite.SimulationParameters_CB
  let app := { app with m_pPerFrame_CB := pPerFrame, m_pSimulationParameters_CB := pSim }
  let app ← init_particle_buffers pDevice rng app
  let pRenderSRV ← create_structured_buffer_SRV pDevice SRVSite.RenderParticleBuffer_SRV
    app.m_pRenderParticleBuffer
  let pOldSRV ← create_structured_buffer_SRV pDevice SRVSite.OldParticleBuffer_SRV
    app.m_pOldParticleBuffer
  let pUpdatedUAV ← create_structured_buffer_UAV pDevice app.m_pUpdatedParticleBuffer
  let app := { app with
    m_pRenderParticleBuffer_SRV := pRenderSRV
    m_pOldParticleBuffer_SRV := pOldSRV
    m_pUpdatedParticleBuffer_UAV := pUpdatedUAV }
  let app := init_index_buffer pDevice app
  let pSampler ← create_basic_sampler pDevice
  let app := { app with m_pLinearMipSamplerState := pSampler }
  let (hr, pBlend) := pDevice.CreateBlendState blendDesc
  let app := { app with m_pAdditiveBlendState := pBlend }
  ASSERT (!FAILED hr && app.m_pAdditiveBlendState.isSome)
  let (hr, pDepth) := pDevice.CreateDepthStencilState
  let app := { app with m_pDisabledDepthTestState := pDepth }
  ASSERT (!FAILED hr && app.m_pDisabledDepthTestState.isSome)
  return app

/-! ## Commands issued on the immediate context

Arguments that are member pointers are named by the member: a buffer by its
`BufferSite`, a shader-resource view by its `SRVSite`. -/

/-- The unordered-access views of the application. -/
inductive UAVSite where
  | UpdatedParticleBuffer_UAV
  deriving DecidableEq, Repr

/-- The buffer a shader-resource view was created on (`on_init`, lines 163 and
166). -/
def srvBuffer : SRVSite → BufferSite
  | SRVSite.RenderParticleBuffer_SRV => BufferSite.RenderParticleBuffer
  | SRVSite.OldParticleBuffer_SRV => BufferSite.OldParticleBuffer

/-- The buffer an unordered-access view was created on (`on_init`, line 169). -/
def uavBuffer : UAVSite → BufferSite
  | UAVSite.UpdatedParticleBuffer_UAV => BufferSite.UpdatedParticleBuffer

/-- The contents of a constant buffer. -/
inductive CBContents (F : Type) where
  | perFrame (d : PerFrameCBData F)
  | simulation (d : SimulationParameters F)

/-- A call on the device context. -/
inductive Cmd (F : Type) where
  | ShaderSet_bind
  | push_constant_buffer (pBuffer : BufferSite) (rData : CBContents F)
  | CSSetShaderResources (StartSlot NumViews : Nat) (views : List (Option SRVSite))
  | CSSetUnorderedAccessViews (StartSlot NumUAVs : Nat) (views : List (Option UAVSite))
  | CSSetConstantBuffers (StartSlot NumBuffers : Nat) (buffers : List BufferSite)
  | Dispatch (ThreadGroupCountX ThreadGroupCountY ThreadGroupCountZ : Nat)
  | CopyResource (pDstResource pSrcResource : BufferSite)
  | VSSetConstantBuffers (StartSlot NumBuffers : Nat) (buffers : List BufferSite)
  | PSSetConstantBuffers (StartSlot NumBuffers : Nat) (buffers : List BufferSite)
  | VSSetShaderResources (StartSlot NumViews : Nat) (views : List (Option SRVSite))
  | Texture_bind (slot : Nat)
  | PSSetSamplers (StartSlot NumSamplers : Nat)
  | OMSetBlendState (SampleMask : Nat)
  | IASetIndexBuffer (pIndexBuffer : BufferSite) (Offset : Nat)
  | IASetPrimitiveTopology
  | DrawIndexed (IndexCount StartIndexLocation : Nat) (BaseVertexLocation : Int)

/-- Recognises a `Dispatch` call. -/
def Cmd.isDispatch {F : Type} : Cmd F → Bool
  | Cmd.Dispatch _ _ _ => true
  | _ => false

/-- The argument triples of the `Dispatch` calls of a command list, in order. -/
def dispatchArgs {F : Type} (cmds : List (Cmd F)) : List (Nat × Nat × Nat) :=
  cmds.filterMap fun c =>
    match c with
    | Cmd.Dispatch x y z => some (x, y, z)
    | _ => none

/-- The argument triples of the `DrawIndexed` calls of a command list, in
order. -/
def drawIndexedArgs {F : Type} (cmds : List (Cmd F)) : List (Nat × Nat × Int) :=
  cmds.filterMap fun c =>
    match c with
    | Cmd.DrawIndexed n s b => some (n, s, b)
    | _ => none

/-- The simulation parameters pushed to `m_pSimulationParameters_CB` by a
command list, in order. -/
def uploadedSimulationParameters {F : Type} (cmds : List (Cmd F)) :
    List (SimulationParameters F) :=
  cmds.filterMap fun c =>
    match c with
    | Cmd.push_constant_buffer BufferSite.SimulationParameters_CB (CBContents.simulation d) =>
      some d
    | _ => none

/-! ## Per-frame update (ParticleSystemApp.cpp, lines 219-298) -/

/-- The mathematical library: `sinf`, `cosf` and the constant `XM_2PI`. -/
structure MathFns (F : Type) where
  sinf : F → F
  cosf : F → F
  XM_2PI : F

/-- What the surroundings supply to one call of `on_update`: the clock, the
random numbers drawn, the camera matrices, and for every ImGui widget the
function taking the variable's current value to the value the widget leaves in
it. -/
structure FrameInput (F : Type) where
  getTimeSeconds : F
  randv2 : v2 F
  randv3 : v3 F
  SliderInt_ParticleCount : Int → Int
  SliderFloat_Sigma : F → F
  SliderFloat_Rho : F → F
  SliderFloat_Beta : F → F
  SliderFloat_Speed : F → F
  Checkbox_RandomColour : Bool → Bool
  Checkbox_Streaks : Bool → Bool
  SliderFloat_R : F → F
  SliderFloat_G : F → F
  SliderFloat_B : F → F
  projMatrix : m4x4 F
  viewMatrix : m4x4 F

/-- The emitter location of line 229:
`1.0f*v3(sinf(polars.x)*cosf(polars.y), sinf(polars.x)*sinf(polars.y), cosf(polars.x))`. -/
def emitterLocation {F : Type} [Field F] (m : MathFns F) (polars : v2 F) : v3 F :=
  v3.smul 1
    ⟨m.sinf polars.x * m.cosf polars.y, m.sinf polars.x * m.sinf polars.y, m.cosf polars.x⟩

/-- Method `on_update` (lines 219-298): the new member values and the calls made
on the device context, in order. The `u32 numThreads` of line 283 is the bit
pattern of the `s32` that `align` returns. -/
def on_update {F : Type} [Field F] (m : MathFns F) (inp : FrameInput F) (app : App F) :
    App F × List (Cmd F) :=
  let updatedTime := inp.getTimeSeconds
  let m_frameTime := updatedTime - app.m_elapsedTime
  let m_elapsedTime := updatedTime
  let polars := v2.smul m.XM_2PI inp.randv2
  let sim := { app.m_simulationParameters with m_emitterLocation := emitterLocation m polars }
  let m_particleCount := inp.SliderInt_ParticleCount app.m_particleCount
  let sim := { sim with m_sigma := inp.SliderFloat_Sigma sim.m_sigma }
  let sim := { sim with m_rho := inp.SliderFloat_Rho sim.m_rho }
  let sim := { sim with m_beta := inp.SliderFloat_Beta sim.m_beta }
  let m_speed := inp.SliderFloat_Speed app.m_speed
  let m_randomColour := inp.Checkbox_RandomColour app.m_randomColour
  let m_streak := inp.Checkbox_Streaks app.m_streak
  let m_particleColour : v3 F :=
    if m_randomColour then
      v3.smul (255 / 2) (v3.add inp.randv3 ⟨1, 1, 1⟩)
    else
      ⟨inp.SliderFloat_R app.m_particleColour.x, inp.SliderFloat_G app.m_particleColour.y,
        inp.SliderFloat_B app.m_particleColour.z⟩
  let m_randomColour := if m_randomColour then false else m_randomColour
  let perFrame : PerFrameCBData F :=
    { m_matProjection := inp.projMatrix.Transpose
      m_matView := inp.viewMatrix.Transpose
      m_deltaTime := m_frameTime * m_speed
      m_particleColour := m_particleColour
      m_streak := m_streak }
  let numThreads : Nat := toBits32 (align m_particleCount 256)
  ({ app with
      m_frameTime := m_frameTime
      m_elapsedTime := m_elapsedTime
      m_simulationParameters := sim
      m_particleCount := m_particleCount
      m_speed := m_speed
      m_randomColour := m_randomColour
      m_streak := m_streak
      m_particleColour := m_particleColour
      m_perFrameCBData := perFrame },
   [ Cmd.ShaderSet_bind,
     Cmd.push_constant_buffer BufferSite.PerFrame_CB (CBContents.perFrame perFrame),
     Cmd.push_constant_buffer BufferSite.SimulationParameters_CB (CBContents.simulation sim),
     Cmd.CSSetShaderResources 0 1 [some SRVSite.OldParticleBuffer_SRV],
     Cmd.CSSetUnorderedAccessViews 0 1 [some UAVSite.UpdatedParticleBuffer_UAV],
     Cmd.CSSetConstantBuffers 0 2 [BufferSite.PerFrame_CB, BufferSite.SimulationParameters_CB],
     Cmd.Dispatch (numThreads / 256) 1 1,
     Cmd.CopyResource BufferSite.OldParticleBuffer BufferSite.UpdatedParticleBuffer,
     Cmd.CopyResource BufferSite.RenderParticleBuffer BufferSite.UpdatedParticleBuffer,
     Cmd.CSSetShaderResources 0 1 [none],
     Cmd.CSSetUnorderedAccessViews 0 1 [none] ])

/-! ## Rendering (ParticleSystemApp.cpp, lines 300-334) -/

/-- Method `on_render` (lines 300-334): the calls made on the device context, in
order. The index count `m_particleCount*6` is an `int` product converted to
`UINT`. -/
def on_render {F : Type} (app : App F) : List (Cmd F) :=
  [ Cmd.VSSetConstantBuffers 2 1 [BufferSite.PerFrame_CB],
    Cmd.PSSetConstantBuffers 2 1 [BufferSite.PerFrame_CB],
    Cmd.VSSetShaderResources 1 1 [some SRVSite.RenderParticleBuffer_SRV],
    Cmd.Texture_bind 2,
    Cmd.PSSetSamplers 0 1,
    Cmd.OMSetBlendState 4294967295,
    Cmd.IASetIndexBuffer BufferSite.IndexBuffer 0,
    Cmd.IASetPrimitiveTopology,
    Cmd.DrawIndexed (toBits32 (s32_mul app.m_particleCount 6)) 0 0,
    Cmd.VSSetShaderResources 1 1 [none] ]

/-! ## Effect of the commands on GPU memory -/

/-- Modelled from the spec: the compute shader `CS_Main` of
`Assets/Shaders/ParticleSimulate.fx` is not part of the sources. Following
"the compute shader reads old, writes updated" and "one thread per particle"
(groups of 256 threads), a thread is given the constant buffers bound to the
compute stage, the contents of the buffer behind the bound shader-resource
view and its thread id, and answers with the elements it stores through the
bound unordered-access view. -/
structure ComputeShader (F : Type) where
  CS_Main : List (CBContents F) → List (Particle F) → Nat × Nat × Nat →
    List (Nat × Particle F)

/-- The state of the GPU as far as the particle pipeline goes: the contents of
the three particle buffers and of the two constant buffers, the bindings of the
compute stage, and whether `Map` succeeds on a buffer. -/
structure GPU (F : Type) where
  OldParticleBuffer : List (Particle F)
  UpdatedParticleBuffer : List (Particle F)
  RenderParticleBuffer : List (Particle F)
  PerFrame_CB : PerFrameCBData F
  SimulationParameters_CB : SimulationParameters F
  csSRV : Nat → Option SRVSite
  csUAV : Nat → Option UAVSite
  csCB : Nat → Option BufferSite
  MapSucceeds : BufferSite → Bool

/-- The particles held by a buffer. -/
def GPU.read {F : Type} (g : GPU F) : BufferSite → List (Particle F)
  | BufferSite.OldParticleBuffer => g.OldParticleBuffer
  | BufferSite.UpdatedParticleBuffer => g.UpdatedParticleBuffer
  | BufferSite.RenderParticleBuffer => g.RenderParticleBuffer
  | _ => []

/-- Replaces the particles held by a buffer. -/
def GPU.write {F : Type} (g : GPU F) (b : BufferSite) (data : List (Particle F)) : GPU F :=
  match b with
  | BufferSite.OldParticleBuffer => { g with OldParticleBuffer := data }
  | BufferSite.UpdatedParticleBuffer => { g with UpdatedParticleBuffer := data }
  | BufferSite.RenderParticleBuffer => { g with RenderParticleBuffer := data }
  | _ => g

/-- The contents of a constant buffer. -/
def GPU.constants {F : Type} (g : GPU F) : BufferSite → Option (CBContents F)
  | BufferSite.PerFrame_CB => some (CBContents.perFrame g.PerFrame_CB)
  | BufferSite.SimulationParameters_CB => some (CBContents.simulation g.SimulationParameters_CB)
  | _ => none

/-- Binds `num` consecutive slots starting at `start`. -/
def bindSlots {α : Type} (cur : Nat → Option α) (start num : Nat) (vs : List (Option α)) :
    Nat → Option α :=
  fun s => if start ≤ s ∧ s < start + num then vs.getD (s - start) none else cur s

/-- The thread ids of a dispatch of `x * y * z` groups of `256 * 1 * 1`
threads. -/
def dispatchThreads (x y z : Nat) : List (Nat × Nat × Nat) :=
  (List.range z).flatMap fun k => (List.range y).flatMap fun j =>
    (List.range (x * 256)).map fun i => (i, j, k)

/-- The stores of all threads of a dispatch, for a shader that sees the
constants `consts` and the input buffer `input`. -/
def dispatchStores {F : Type} (cs : ComputeShader F) (consts : List (CBContents F))
    (input : List (Particle F)) (x y z : Nat) : List (Nat × Particle F) :=
  (dispatchThreads x y z).flatMap (cs.CS_Main consts input)

/-- Performs a list of stores on a buffer; a store outside the buffer is
dropped. -/
def applyStores {F : Type} (stores : List (Nat × Particle F)) (buf : List (Particle F)) :
    List (Particle F) :=
  stores.foldl (fun b w => b.set w.1 w.2) buf

/-- The constant buffers bound to slots 0 and 1 of the compute stage. -/
def GPU.csConstants {F : Type} (g : GPU F) : List (CBContents F) :=
  ([0, 1].filterMap fun s => (g.csCB s).bind g.constants)

/-- The effect of one command on the GPU. Only the compute stage and the copy
engine touch the particle buffers. -/
def exec {F : Type} (cs : ComputeShader F) (g : GPU F) : Cmd F → GPU F
  | Cmd.push_constant_buffer pBuffer rData =>
    if g.MapSucceeds pBuffer then
      match pBuffer, rData with
      | BufferSite.PerFrame_CB, CBContents.perFrame d => { g with PerFrame_CB := d }
      | BufferSite.SimulationParameters_CB, CBContents.simulation d =>
        { g with SimulationParameters_CB := d }
      | _, _ => g
    else g
  | Cmd.CSSetShaderResources start num views =>
    { g with csSRV := bindSlots g.csSRV start num views }
  | Cmd.CSSetUnorderedAccessViews start num views =>
    { g with csUAV := bindSlots g.csUAV start num views }
  | Cmd.CSSetConstantBuffers start num buffers =>
    { g with csCB := bindSlots g.csCB start num (buffers.map some) }
  | Cmd.Dispatch x y z =>
    match g.csSRV 0, g.csUAV 0 with
    | some srv, some uav =>
      g.write (uavBuffer uav)
        (applyStores (dispatchStores cs g.csConstants (g.read (srvBuffer srv)) x y z)
          (g.read (uavBuffer uav)))
    | _, _ => g
  | Cmd.CopyResource dst src => g.write dst (g.read src)
  | _ => g

/-- Runs a list of commands. -/
def execAll {F : Type} (cs : ComputeShader F) (g : GPU F) (cmds : List (Cmd F)) : GPU F :=
  cmds.foldl (exec cs) g

/-- The commands of a frame up to and including its first `Dispatch`. -/
def throughDispatch {F : Type} : List (Cmd F) → List (Cmd F)
  | [] => []
  | c :: cs => if c.isDispatch then [c] else c :: throughDispatch cs

/-! ## Concrete inputs used to evaluate the model -/

/-- A device on which every creation succeeds, handing out pointer `7`. -/
def goodDevice : Device :=
  { CreateBuffer := fun _ => (0, some 7)
    CreateShaderResourceView := fun _ _ => (0, some 7)
    CreateUnorderedAccessView := fun _ => (0, some 7)
    CreateSamplerState := (0, some 7)
    CreateBlendState := fun _ => (0, some 7)
    CreateDepthStencilState := (0, some 7) }

/-- The `HRESULT` `E_OUTOFMEMORY` (`0x8007000E`) as a signed value. -/
def E_OUTOFMEMORY : HRESULT := -2147024882

/-- A device on which the creation of the index buffer fails with
`E_OUTOFMEMORY` and a null pointer, and every other creation succeeds. -/
def indexBufferFailsDevice : Device :=
  { goodDevice with
    CreateBuffer := fun site =>
      if site = BufferSite.IndexBuffer then (E_OUTOFMEMORY, none) else (0, some 7) }

/-- A device on which the creation of the sampler fails and every other
creation succeeds. -/
def samplerFailsDevice : Device :=
  { goodDevice with CreateSamplerState := (E_OUTOFMEMORY, none) }

/-- A per-frame record of zeros. -/
def zeroFrameData : PerFrameCBData ℚ :=
  { m_matView := fun _ _ => 0
    m_matProjection := fun _ _ => 0
    m_particleColour := ⟨0, 0, 0⟩
    m_deltaTime := 0
    m_streak := false }

/-- A simulation record whose fields are zero except for a recognisable
particle count of `123`. -/
def staleSimParams : SimulationParameters ℚ :=
  { m_emitterLocation := ⟨0, 0, 0⟩
    m_sigma := 0
    m_rho := 0
    m_beta := 0
    m_particleCount := 123 }

/-- A freshly constructed application object. -/
def freshApp : App ℚ :=
  App.construct
    { m_perFrameCBData := zeroFrameData
      m_pPerFrame_CB := none
      m_simulationParameters := staleSimParams
      m_pSimulationParameters_CB := none
      m_OldParticles := []
      m_pOldParticleBuffer := none
      m_pOldParticleBuffer_SRV := none
      m_UpdatedParticles := []
      m_pUpdatedParticleBuffer := none
      m_pUpdatedParticleBuffer_UAV := none
      m_RenderParticles := []
      m_pRenderParticleBuffer := none
      m_pRenderParticleBuffer_SRV := none
      m_Indices := []
      m_pIndexBuffer := none
      m_pLinearMipSamplerState := none
      m_pAdditiveBlendState := none
      m_pDisabledDepthTestState := none
      m_frameTime := 0
      m_elapsedTime := 0
      m_speed := 0
      m_particleCount := 0
      m_randomColour := false
      m_streak := false
      m_particleColour := ⟨0, 0, 0⟩ }

/-- A random source that always answers zero. -/
def zeroRandom : RandomSource ℚ :=
  { randf := fun _ => 0
    randv3 := fun _ => ⟨0, 0, 0⟩ }

/-- Stand-ins for the mathematical library on the rationals. -/
def sampleMath : MathFns ℚ :=
  { sinf := fun _ => 0
    cosf := fun _ => 1
    XM_2PI := 6 }

/-- A frame in which the user drags the particle-count slider to `n` and leaves
every other widget alone. -/
def sliderFrame (n : Int) : FrameInput ℚ :=
  { getTimeSeconds := 1
    randv2 := ⟨0, 0⟩
    randv3 := ⟨0, 0, 0⟩
    SliderInt_ParticleCount := fun _ => n
    SliderFloat_Sigma := id
    SliderFloat_Rho := id
    SliderFloat_Beta := id
    SliderFloat_Speed := id
    Checkbox_RandomColour := id
    Checkbox_Streaks := id
    SliderFloat_R := id
    SliderFloat_G := id
    SliderFloat_B := id
    projMatrix := fun _ _ => 0
    viewMatrix := fun _ _ => 0 }

/-! ## Machine integers: basic facts -/

theorem toBits32_natCast (n : Nat) (h : n < 4294967296) : toBits32 (n : Int) = n := by
  unfold toBits32
  have : ((n : Int) % 4294967296) = (n : Int) := Int.emod_eq_of_lt (by omega) (by omega)
  rw [this]
  simp

theorem ofBits32_small (b : Nat) (h : b < 2147483648) : ofBits32 b = (b : Int) := by
  unfold ofBits32
  simp [h]

theorem toBits32_ofBits32 (b : Nat) (h : b < 4294967296) : toBits32 (ofBits32 b) = b := by
  unfold ofBits32 toBits32
  split
  · have : ((b : Int) % 4294967296) = (b : Int) := Int.emod_eq_of_lt (by omega) (by omega)
    rw [this]
    simp
  · have : (((b : Int) - 4294967296) % 4294967296) = (b : Int) := by omega
    rw [this]
    simp

/-- Masking a 32-bit pattern with the complement of `2^k - 1` clears the low
`k` bits. -/
theorem and_mask (X k : Nat) (hX : X < 2 ^ 32) (hk : k ≤ 32) :
    X &&& (2 ^ 32 - 2 ^ k) = 2 ^ k * (X / 2 ^ k) := by
  apply Nat.eq_of_testBit_eq
  intro i
  have hpos : 0 < 2 ^ k := Nat.two_pow_pos k
  have hle : 2 ^ k ≤ 2 ^ 32 := Nat.pow_le_pow_right (by decide) hk
  have h1 : 2 ^ 32 - 2 ^ k = 2 ^ 32 - ((2 ^ k - 1) + 1) := by omega
  have h2 : 2 ^ k - 1 < 2 ^ 32 := by omega
  rw [Nat.testBit_and, h1, Nat.testBit_two_pow_sub_succ h2, Nat.testBit_two_pow_sub_one,
    Nat.testBit_mul_pow_two, ← Nat.shiftRight_eq_div_pow, Nat.testBit_shiftRight]
  by_cases hik : i < k
  · have : ¬ (i ≥ k) := by omega
    simp [hik, this]
  · have hge : i ≥ k := by omega
    have e : k + (i - k) = i := by omega
    by_cases hi : i < 32
    · simp [hik, hge, hi, e]
    · have : X.testBit i = false := by
        apply Nat.testBit_lt_two_pow
        exact Nat.lt_of_lt_of_le hX (Nat.pow_le_pow_right (by decide) (by omega))
      simp [this, e]

/-- On natural arguments without overflow, `align` clears the low bits of
`n + (2^k - 1)`. -/
theorem align_natCast (n k : Nat) (h : n + 2 ^ k - 1 < 2147483648) :
    align (n : Int) ((2 ^ k : Nat) : Int) = ((2 ^ k * ((n + 2 ^ k - 1) / 2 ^ k) : Nat) : Int) := by
  have hpos : 0 < 2 ^ k := Nat.two_pow_pos k
  have hk : k ≤ 32 := by
    by_contra hc
    have : 2 ^ 33 ≤ 2 ^ k := Nat.pow_le_pow_right (by decide) (by omega)
    omega
  have hsub : s32_sub ((2 ^ k : Nat) : Int) 1 = ((2 ^ k - 1 : Nat) : Int) := by
    unfold s32_sub
    have e : ((2 ^ k : Nat) : Int) - 1 = ((2 ^ k - 1 : Nat) : Int) := by omega
    rw [e, toBits32_natCast _ (by omega), ofBits32_small _ (by omega)]
  have hadd : s32_add (n : Int) ((2 ^ k - 1 : Nat) : Int) = ((n + 2 ^ k - 1 : Nat) : Int) := by
    unfold s32_add
    have e : (n : Int) + ((2 ^ k - 1 : Nat) : Int) = ((n + 2 ^ k - 1 : Nat) : Int) := by omega
    rw [e, toBits32_natCast _ (by omega), ofBits32_small _ (by omega)]
  have hnot : toBits32 (s32_not ((2 ^ k - 1 : Nat) : Int)) = 2 ^ 32 - 2 ^ k := by
    unfold s32_not
    rw [toBits32_natCast _ (by omega), toBits32_ofBits32 _ (by omega)]
    omega
  unfold align
  rw [hsub, hadd]
  unfold s32_and
  rw [hnot, toBits32_natCast _ (by omega), and_mask _ _ (by omega) hk]
  apply ofBits32_small
  have := Nat.mul_div_le (n + 2 ^ k - 1) (2 ^ k)
  omega

/-- The closed form of `align` for a non-negative count and a power-of-two
alignment, when `num + alignment - 1` fits an `s32`. -/
theorem align_eq (num : Int) (k : Nat) (hnum : 0 ≤ num)
    (hfit : num + 2 ^ k - 1 ≤ 2147483647) :
    align num (2 ^ k) = 2 ^ k * ((num + 2 ^ k - 1) / 2 ^ k) := by
  obtain ⟨n, rfl⟩ := Int.eq_ofNat_of_zero_le hnum
  have hpos : 0 < 2 ^ k := Nat.two_pow_pos k
  have hc : ((2 ^ k : Nat) : Int) = (2 : Int) ^ k := by push_cast; rfl
  have h : n + 2 ^ k - 1 < 2147483648 := by
    have : ((n + 2 ^ k - 1 : Nat) : Int) = (n : Int) + 2 ^ k - 1 := by
      rw [← hc]; omega
    omega
  have := align_natCast n k h
  rw [hc] at this
  rw [this]
  have e : ((n + 2 ^ k - 1 : Nat) : Int) = (n : Int) + 2 ^ k - 1 := by
    rw [← hc]; omega
  push_cast [← e]
  rfl

theorem align_256 (n : Int) (h0 : 0 ≤ n) (h1 : n ≤ 2147483392) :
    align n 256 = 256 * ((n + 255) / 256) := by
  have := align_eq n 8 h0 (by norm_num; omega)
  norm_num at this
  rw [this]
  congr 2
  ring

/-! ## The call lists of a frame -/

theorem dispatchArgs_on_update {F : Type} [Field F] (m : MathFns F) (inp : FrameInput F)
    (app : App F) :
    dispatchArgs (on_update m inp app).2 =
      [(toBits32 (align (on_update m inp app).1.m_particleCount 256) / 256, 1, 1)] := by
  simp [on_update, dispatchArgs]

theorem toBits32_align_256 (n : Int) (h0 : 0 ≤ n) (h1 : n ≤ 2147483392) :
    ((toBits32 (align n 256) / 256 : Nat) : Int) = (n + 255) / 256 := by
  rw [align_256 n h0 h1]
  have hq : 0 ≤ (n + 255) / 256 := Int.ediv_nonneg (by omega) (by decide)
  obtain ⟨q, hq2⟩ := Int.eq_ofNat_of_zero_le hq
  rw [hq2]
  have : (256 : Int) * (q : Int) = ((256 * q : Nat) : Int) := by push_cast; rfl
  rw [this, toBits32_natCast _ (by omega)]
  simp

/-! ## Claims -/

/-- C2: for `num ≥ 0` and `alignment = 2^k` with `num + alignment - 1`
representable as a signed 32-bit integer, `align num alignment` is the smallest
multiple of `alignment` that is at least `num`: it is a multiple of
`alignment`, it is `≥ num`, it is `< num + alignment`, no smaller multiple is
`≥ num`, and it equals `num` when `num` is already a multiple. -/
theorem align_smallest_multiple (num alignment : Int) (k : Nat) (hnum : 0 ≤ num)
    (hpow : alignment = 2 ^ k) (hfit : num + alignment - 1 ≤ 2147483647) :
    alignment ∣ align num alignment ∧ num ≤ align num alignment ∧
      align num alignment < num + alignment ∧
      (∀ m : Int, alignment ∣ m → num ≤ m → align num alignment ≤ m) ∧
      (alignment ∣ num → align num alignment = num) := by
  subst hpow
  rw [align_eq num k hnum hfit]
  have hpos : (0 : Int) < 2 ^ k := by positivity
  generalize (2 : Int) ^ k = a at *
  have hdm := Int.ediv_add_emod (num + a - 1) a
  have hm0 := Int.emod_nonneg (num + a - 1) (ne_of_gt hpos)
  have hm1 := Int.emod_lt_of_pos (num + a - 1) hpos
  have hle : num ≤ a * ((num + a - 1) / a) := by omega
  have hlt : a * ((num + a - 1) / a) < num + a := by omega
  have hleast : ∀ m : Int, a ∣ m → num ≤ m → a * ((num + a - 1) / a) ≤ m := by
    rintro m ⟨c, rfl⟩ hc
    apply Int.mul_le_mul_of_nonneg_left _ (le_of_lt hpos)
    have : (num + a - 1) / a < c + 1 := by
      apply Int.ediv_lt_of_lt_mul hpos
      have : (c + 1) * a = a * c + a := by ring
      omega
    omega
  refine ⟨Dvd.intro _ rfl, hle, hlt, hleast, ?_⟩
  intro hd
  exact le_antisymm (hleast num hd (le_refl _)) hle

/-- Witness for C2 at `num = 1000`, `alignment = 256 = 2^8`. -/
theorem align_smallest_multiple_witness :
    (0 : Int) ≤ 1000 ∧ (256 : Int) = 2 ^ 8 ∧ (1000 : Int) + 256 - 1 ≤ 2147483647 ∧
      ((256 : Int) ∣ align 1000 256 ∧ (1000 : Int) ≤ align 1000 256 ∧
        align 1000 256 < 1000 + 256 ∧
        (∀ m : Int, (256 : Int) ∣ m → 1000 ≤ m → align 1000 256 ≤ m) ∧
        ((256 : Int) ∣ 1000 → align 1000 256 = 1000)) :=
  ⟨by decide, by decide, by decide,
    align_smallest_multiple 1000 256 8 (by decide) (by decide) (by decide)⟩

theorem drawIndexedArgs_on_render {F : Type} (app : App F) :
    drawIndexedArgs (on_render app) = [(toBits32 (s32_mul app.m_particleCount 6), 0, 0)] := by
  simp [on_render, drawIndexedArgs]

theorem length_flatMap_const {α β : Type} (f : α → List β) (c : Nat)
    (hf : ∀ a, (f a).length = c) (l : List α) : (l.flatMap f).length = l.length * c := by
  induction l with
  | nil => simp
  | cons a t ih =>
    rw [List.flatMap_cons, List.length_append, ih, hf, List.length_cons]
    ring

theorem dispatchThreads_length (x y z : Nat) :
    (dispatchThreads x y z).length = z * (y * (x * 256)) := by
  unfold dispatchThreads
  rw [length_flatMap_const _ (y * (x * 256)), List.length_range]
  intro k
  rw [length_flatMap_const _ (x * 256), List.length_range]
  intro j
  simp

/-- C1 (as stated, refuted): with the slider at `n = 1` the frame makes one
`Dispatch` call, and its first argument is not `1` rounded up to a multiple of
`256` (that would be `256`; the argument is `1`). -/
theorem dispatch_groups_not_rounded_count :
    (on_update sampleMath (sliderFrame 1) freshApp).1.m_particleCount = 1 ∧
      ¬ ∃ g : Nat, dispatchArgs (on_update sampleMath (sliderFrame 1) freshApp).2 = [(g, 1, 1)] ∧
        IsRoundedUp 256 1 (g : Int) := by
  refine ⟨rfl, ?_⟩
  rintro ⟨g, hg, hr⟩
  rw [dispatchArgs_on_update] at hg
  have h1 : (on_update sampleMath (sliderFrame 1) freshApp).1.m_particleCount = 1 := rfl
  rw [h1] at hg
  have h2 : toBits32 (align 1 256) / 256 = 1 := by decide
  rw [h2] at hg
  simp only [List.cons.injEq, Prod.mk.injEq, and_true] at hg
  subst hg
  revert hr
  decide

/-- C1 (amended): for every particle count `n` with `0 ≤ n ≤ 500000` left by
the slider, `on_update` makes exactly one `Dispatch` call; its second and third
arguments are `1` and its first argument is `r / 256`, where `r` is `n` rounded
up to the nearest multiple of `256`. -/
theorem dispatch_groups_eq_rounded_count_div {F : Type} [Field F] (m : MathFns F)
    (inp : FrameInput F) (app : App F) (n : Int)
    (hn : (on_update m inp app).1.m_particleCount = n) (h0 : 0 ≤ n) (h1 : n ≤ 500000) :
    ∃ r : Int, IsRoundedUp 256 n r ∧
      dispatchArgs (on_update m inp app).2 = [((r / 256).toNat, 1, 1)] := by
  refine ⟨align n 256, ?_, ?_⟩
  · rw [align_256 n h0 (by omega)]
    exact ⟨Dvd.intro _ rfl, by omega, by omega⟩
  · rw [dispatchArgs_on_update, hn]
    have h := toBits32_align_256 n h0 (by omega)
    have e : align n 256 / 256 = (n + 255) / 256 := by
      rw [align_256 n h0 (by omega)]
      exact Int.mul_ediv_cancel_left _ (by decide)
    have t : ((n + 255) / 256).toNat = toBits32 (align n 256) / 256 := by
      rw [← h]
      exact Int.toNat_ofNat _
    rw [e, t]

/-- Witness for the amended C1: the slider at `1000`. -/
theorem dispatch_groups_eq_rounded_count_div_witness :
    (on_update sampleMath (sliderFrame 1000) freshApp).1.m_particleCount = 1000 ∧
      (0 : Int) ≤ 1000 ∧ (1000 : Int) ≤ 500000 ∧
      ∃ r : Int, IsRoundedUp 256 1000 r ∧
        dispatchArgs (on_update sampleMath (sliderFrame 1000) freshApp).2 =
          [((r / 256).toNat, 1, 1)] :=
  ⟨rfl, by decide, by decide,
    dispatch_groups_eq_rounded_count_div sampleMath (sliderFrame 1000) freshApp 1000 rfl
      (by decide) (by decide)⟩

/-- C4: for every particle count `n ≥ 0` whose product `n * 6` fits an `s32`
(in particular for every count `0 .. 500000` the slider allows), `on_render`
makes exactly one `DrawIndexed` call; its index count is `6 * n`, its start
index is `0` and its base vertex is `0`. -/
theorem on_render_one_draw_call {F : Type} (app : App F) (h0 : 0 ≤ app.m_particleCount)
    (h1 : app.m_particleCount * 6 ≤ 2147483647) :
    ∃ k : Nat, drawIndexedArgs (on_render app) = [(k, 0, 0)] ∧
      (k : Int) = 6 * app.m_particleCount := by
  refine ⟨_, drawIndexedArgs_on_render app, ?_⟩
  obtain ⟨n, hn⟩ := Int.eq_ofNat_of_zero_le h0
  rw [hn] at h1 ⊢
  unfold s32_mul
  have e : (n : Int) * 6 = ((n * 6 : Nat) : Int) := by push_cast; rfl
  rw [e, toBits32_natCast _ (by omega), toBits32_ofBits32 _ (by omega)]
  omega

/-- Witness for C4: the application right after the slider was set to
`500000`. -/
theorem on_render_one_draw_call_witness :
    (0 : Int) ≤ (on_update sampleMath (sliderFrame 500000) freshApp).1.m_particleCount ∧
      (on_update sampleMath (sliderFrame 500000) freshApp).1.m_particleCount * 6 ≤ 2147483647 ∧
      ∃ k : Nat,
        drawIndexedArgs (on_render (on_update sampleMath (sliderFrame 500000) freshApp).1) =
          [(k, 0, 0)] ∧
        (k : Int) = 6 * (on_update sampleMath (sliderFrame 500000) freshApp).1.m_particleCount :=
  ⟨by decide, by decide,
    on_render_one_draw_call (on_update sampleMath (sliderFrame 500000) freshApp).1
      (by decide) (by decide)⟩

/-- C8: for every particle count `0 ≤ n ≤ 500000` the `g = align(n, 256) / 256`
thread groups of 256 threads cover the particles: `g * 256 ≥ n`,
`g * 256 < n + 256`, `g` is the ceiling of `n / 256`, `g = 0` exactly when
`n = 0`, the dispatch has `g * 256` threads, and none of the intermediate
values `256 - 1`, `n + (256 - 1)`, `align(n, 256)` leaves the `s32` range. -/
theorem thread_groups_cover_particles (n : Int) (g : Nat) (h0 : 0 ≤ n) (h1 : n ≤ 500000)
    (hg : g = toBits32 (align n 256) / 256) :
    (g : Int) * 256 ≥ n ∧ (g : Int) * 256 < n + 256 ∧
      Int.ceil ((n : ℚ) / 256) = (g : Int) ∧ (g = 0 ↔ n = 0) ∧
      (dispatchThreads g 1 1).length = g * 256 ∧
      inS32 (256 - 1) ∧ inS32 (n + (256 - 1)) ∧ inS32 (align n 256) ∧
      align n 256 = (g : Int) * 256 := by
  have hq := toBits32_align_256 n h0 (by omega)
  rw [← hg] at hq
  have ha := align_256 n h0 (by omega)
  rw [← hq] at ha
  have hge : (g : Int) * 256 ≥ n := by omega
  have hlt : (g : Int) * 256 < n + 256 := by omega
  refine ⟨hge, hlt, ?_, by omega, ?_, ?_, ?_, ?_, by omega⟩
  · rw [Int.ceil_eq_iff]
    constructor
    · rw [lt_div_iff₀ (by norm_num)]
      have : (((g : Int) * 256 : Int) : ℚ) < ((n + 256 : Int) : ℚ) := by exact_mod_cast hlt
      push_cast at this ⊢
      linarith
    · rw [div_le_iff₀ (by norm_num)]
      have : ((n : Int) : ℚ) ≤ (((g : Int) * 256 : Int) : ℚ) := by exact_mod_cast hge
      push_cast at this ⊢
      linarith
  · rw [dispatchThreads_length]
    omega
  · unfold inS32; omega
  · unfold inS32; omega
  · unfold inS32; omega

/-- Witness for C8 at `n = 1000`, where `g = 4`. -/
theorem thread_groups_cover_particles_witness :
    (0 : Int) ≤ 1000 ∧ (1000 : Int) ≤ 500000 ∧ 4 = toBits32 (align 1000 256) / 256 ∧
      (((4 : Nat) : Int) * 256 ≥ 1000 ∧ ((4 : Nat) : Int) * 256 < 1000 + 256 ∧
        Int.ceil (((1000 : Int) : ℚ) / 256) = ((4 : Nat) : Int) ∧ (4 = 0 ↔ (1000 : Int) = 0) ∧
        (dispatchThreads 4 1 1).length = 4 * 256 ∧
        inS32 (256 - 1) ∧ inS32 (1000 + (256 - 1)) ∧ inS32 (align 1000 256) ∧
        align 1000 256 = ((4 : Nat) : Int) * 256) :=
  ⟨by decide, by decide, by decide,
    thread_groups_cover_particles 1000 4 (by decide) (by decide) (by decide)⟩

/-! ## The index data -/

theorem u32_of_lt (x : Nat) (h : x < 4294967296) : u32 x = x := Nat.mod_eq_of_lt h

theorem vector_resize_length {α : Type} (zero : α) (v : List α) (n : Nat) :
    (vector_resize zero v n).length = n := by
  unfold vector_resize
  simp only [List.length_append, List.length_take, List.length_replicate]
  omega

theorem init_index_buffer_body_length (i : Nat) (l : List Nat) :
    (init_index_buffer_body i l).length = l.length := by
  simp [init_index_buffer_body]

/-- Positions outside the six slots of particle `k` are left alone by the loop
body. -/
theorem init_index_buffer_body_other (k : Nat) (l : List Nat) (p : Nat)
    (hk : 6 * k + 5 < 4294967296) (hp : p < 6 * k ∨ 6 * k + 6 ≤ p) :
    (init_index_buffer_body k l)[p]? = l[p]? := by
  unfold init_index_buffer_body
  rw [u32_of_lt (6 * k) (by omega), u32_of_lt (6 * k + 1) (by omega),
    u32_of_lt (6 * k + 2) (by omega), u32_of_lt (6 * k + 3) (by omega),
    u32_of_lt (6 * k + 4) (by omega), u32_of_lt (6 * k + 5) (by omega)]
  rw [List.getElem?_set_ne (by omega), List.getElem?_set_ne (by omega),
    List.getElem?_set_ne (by omega), List.getElem?_set_ne (by omega),
    List.getElem?_set_ne (by omega), List.getElem?_set_ne (by omega)]

/-- The six slots of particle `k` after the loop body. -/
theorem init_index_buffer_body_self (k : Nat) (l : List Nat)
    (hk : 6 * k + 5 < l.length) (hl : l.length ≤ 4294967296) :
    (init_index_buffer_body k l)[6 * k]? = some (4 * k) ∧
      (init_index_buffer_body k l)[6 * k + 1]? = some (4 * k + 1) ∧
      (init_index_buffer_body k l)[6 * k + 2]? = some (4 * k + 2) ∧
      (init_index_buffer_body k l)[6 * k + 3]? = some (4 * k) ∧
      (init_index_buffer_body k l)[6 * k + 4]? = some (4 * k + 2) ∧
      (init_index_buffer_body k l)[6 * k + 5]? = some (4 * k + 3) := by
  unfold init_index_buffer_body
  rw [u32_of_lt (6 * k) (by omega), u32_of_lt (6 * k + 1) (by omega),
    u32_of_lt (6 * k + 2) (by omega), u32_of_lt (6 * k + 3) (by omega),
    u32_of_lt (6 * k + 4) (by omega), u32_of_lt (6 * k + 5) (by omega),
    u32_of_lt (4 * k) (by omega), u32_of_lt (4 * k + 1) (by omega),
    u32_of_lt (4 * k + 2) (by omega), u32_of_lt (4 * k + 3) (by omega)]
  simp only [List.getElem?_set, List.length_set]
  refine ⟨?_, ?_, ?_, ?_, ?_, ?_⟩ <;>
    simp [show 6 * k < l.length by omega, show 6 * k + 1 < l.length by omega,
      show 6 * k + 2 < l.length by omega, show 6 * k + 3 < l.length by omega,
      show 6 * k + 4 < l.length by omega, hk]

/-- The loop invariant of `init_index_buffer`: after the iterations
`0 .. k - 1` the length is unchanged and the slots of every particle `i < k`
hold its quad. -/
theorem init_index_buffer_loop (l0 : List Nat) (hl : l0.length ≤ 4294967296) (k : Nat)
    (hk : 6 * k ≤ l0.length) :
    ((List.range k).foldl (fun acc i => init_index_buffer_body i acc) l0).length = l0.length ∧
      ∀ i, i < k →
        ((List.range k).foldl (fun acc i => init_index_buffer_body i acc) l0)[6 * i]? =
            some (4 * i) ∧
          ((List.range k).foldl (fun acc i => init_index_buffer_body i acc) l0)[6 * i + 1]? =
            some (4 * i + 1) ∧
          ((List.range k).foldl (fun acc i => init_index_buffer_body i acc) l0)[6 * i + 2]? =
            some (4 * i + 2) ∧
          ((List.range k).foldl (fun acc i => init_index_buffer_body i acc) l0)[6 * i + 3]? =
            some (4 * i) ∧
          ((List.range k).foldl (fun acc i => init_index_buffer_body i acc) l0)[6 * i + 4]? =
            some (4 * i + 2) ∧
          ((List.range k).foldl (fun acc i => init_index_buffer_body i acc) l0)[6 * i + 5]? =
            some (4 * i + 3) := by
  induction k with
  | zero => simp
  | succ k ih =>
    obtain ⟨ihl, ihq⟩ := ih (by omega)
    rw [List.range_succ, List.foldl_append]
    simp only [List.foldl_cons, List.foldl_nil]
    generalize (List.range k).foldl (fun acc i => init_index_buffer_body i acc) l0 = l at ihl ihq
    refine ⟨by rw [init_index_buffer_body_length, ihl], ?_⟩
    intro i hi
    by_cases hik : i = k
    · subst hik
      exact init_index_buffer_body_self i l (by omega) (by omega)
    · have hlt : i < k := by omega
      have hb : 6 * k + 5 < 4294967296 := by omega
      rw [init_index_buffer_body_other k l _ hb (by omega),
        init_index_buffer_body_other k l _ hb (by omega),
        init_index_buffer_body_other k l _ hb (by omega),
        init_index_buffer_body_other k l _ hb (by omega),
        init_index_buffer_body_other k l _ hb (by omega),
        init_index_buffer_body_other k l _ hb (by omega)]
      exact ihq i hlt

theorem init_index_buffer_m_Indices {F : Type} (pDevice : Device) (app : App F) :
    (init_index_buffer pDevice app).m_Indices =
      init_index_buffer_fill m_maxNumParticles app.m_Indices := by
  unfold init_index_buffer
  rcases pDevice.CreateBuffer BufferSite.IndexBuffer with ⟨hr, p⟩
  dsimp only
  split_ifs <;> simp only

/-- C3: after `init_index_buffer` the index array has exactly `6 * 500000`
entries and, for every particle `i < 500000`, the entries at positions
`6i .. 6i+5` are `4i, 4i+1, 4i+2, 4i, 4i+2, 4i+3`: the triangles
`(4i, 4i+1, 4i+2)` and `(4i, 4i+2, 4i+3)`, which share the edge `(4i, 4i+2)`
and use exactly the vertices `4i .. 4i+3`. -/
theorem init_index_buffer_quads {F : Type} (pDevice : Device) (app : App F) (i : Nat)
    (hi : i < 500000) :
    (init_index_buffer pDevice app).m_Indices.length = 6 * 500000 ∧
      (init_index_buffer pDevice app).m_Indices[6 * i]? = some (4 * i) ∧
      (init_index_buffer pDevice app).m_Indices[6 * i + 1]? = some (4 * i + 1) ∧
      (init_index_buffer pDevice app).m_Indices[6 * i + 2]? = some (4 * i + 2) ∧
      (init_index_buffer pDevice app).m_Indices[6 * i + 3]? = some (4 * i) ∧
      (init_index_buffer pDevice app).m_Indices[6 * i + 4]? = some (4 * i + 2) ∧
      (init_index_buffer pDevice app).m_Indices[6 * i + 5]? = some (4 * i + 3) ∧
      ∀ v : Nat, v ∈ [4 * i, 4 * i + 1, 4 * i + 2, 4 * i, 4 * i + 2, 4 * i + 3] ↔
        4 * i ≤ v ∧ v ≤ 4 * i + 3 := by
  rw [init_index_buffer_m_Indices]
  unfold init_index_buffer_fill
  have hlen : (vector_resize 0 app.m_Indices (u32 (6 * m_maxNumParticles))).length = 3000000 := by
    rw [vector_resize_length]
    decide
  have h := init_index_buffer_loop (vector_resize 0 app.m_Indices (u32 (6 * m_maxNumParticles)))
    (by omega) m_maxNumParticles (by rw [hlen]; decide)
  obtain ⟨h1, h2⟩ := h
  have hq := h2 i (by unfold m_maxNumParticles; exact hi)
  refine ⟨by rw [h1, hlen], hq.1, hq.2.1, hq.2.2.1, hq.2.2.2.1, hq.2.2.2.2.1, hq.2.2.2.2.2, ?_⟩
  intro v
  simp only [List.mem_cons, List.mem_singleton, List.not_mem_nil, or_false]
  omega

/-- Witness for C3: particle `7` on the all-succeeding device. -/
theorem init_index_buffer_quads_witness :
    7 < 500000 ∧
      ((init_index_buffer goodDevice freshApp).m_Indices.length = 6 * 500000 ∧
      (init_index_buffer goodDevice freshApp).m_Indices[6 * 7]? = some (4 * 7) ∧
      (init_index_buffer goodDevice freshApp).m_Indices[6 * 7 + 1]? = some (4 * 7 + 1) ∧
      (init_index_buffer goodDevice freshApp).m_Indices[6 * 7 + 2]? = some (4 * 7 + 2) ∧
      (init_index_buffer goodDevice freshApp).m_Indices[6 * 7 + 3]? = some (4 * 7) ∧
      (init_index_buffer goodDevice freshApp).m_Indices[6 * 7 + 4]? = some (4 * 7 + 2) ∧
      (init_index_buffer goodDevice freshApp).m_Indices[6 * 7 + 5]? = some (4 * 7 + 3) ∧
      ∀ v : Nat, v ∈ [4 * 7, 4 * 7 + 1, 4 * 7 + 2, 4 * 7, 4 * 7 + 2, 4 * 7 + 3] ↔
        4 * 7 ≤ v ∧ v ≤ 4 * 7 + 3) :=
  ⟨by decide, init_index_buffer_quads goodDevice freshApp 7 (by decide)⟩

/-! ## The particle buffers across a frame -/

theorem exec_ShaderSet_bind {F : Type} (cs : ComputeShader F) (g : GPU F) :
    exec cs g Cmd.ShaderSet_bind = g := rfl

theorem exec_CSSetShaderResources {F : Type} (cs : ComputeShader F) (g : GPU F)
    (s n : Nat) (v : List (Option SRVSite)) :
    exec cs g (Cmd.CSSetShaderResources s n v) = { g with csSRV := bindSlots g.csSRV s n v } :=
  rfl

theorem exec_CSSetUnorderedAccessViews {F : Type} (cs : ComputeShader F) (g : GPU F)
    (s n : Nat) (v : List (Option UAVSite)) :
    exec cs g (Cmd.CSSetUnorderedAccessViews s n v) =
      { g with csUAV := bindSlots g.csUAV s n v } :=
  rfl

theorem exec_CSSetConstantBuffers {F : Type} (cs : ComputeShader F) (g : GPU F)
    (s n : Nat) (v : List BufferSite) :
    exec cs g (Cmd.CSSetConstantBuffers s n v) =
      { g with csCB := bindSlots g.csCB s n (v.map some) } :=
  rfl

theorem exec_CopyResource {F : Type} (cs : ComputeShader F) (g : GPU F)
    (dst src : BufferSite) :
    exec cs g (Cmd.CopyResource dst src) = g.write dst (g.read src) :=
  rfl

theorem exec_Dispatch_bound {F : Type} (cs : ComputeShader F) (g : GPU F) (x y z : Nat)
    (srv : SRVSite) (uav : UAVSite) (h1 : g.csSRV 0 = some srv) (h2 : g.csUAV 0 = some uav) :
    exec cs g (Cmd.Dispatch x y z) =
      g.write (uavBuffer uav)
        (applyStores (dispatchStores cs g.csConstants (g.read (srvBuffer srv)) x y z)
          (g.read (uavBuffer uav))) := by
  simp only [exec, h1, h2]

/-- Uploading a constant buffer changes neither the particle buffers nor the
bindings of the compute stage. -/
theorem exec_push_constant_buffer {F : Type} (cs : ComputeShader F) (g : GPU F)
    (b : BufferSite) (d : CBContents F) :
    (exec cs g (Cmd.push_constant_buffer b d)).OldParticleBuffer = g.OldParticleBuffer ∧
      (exec cs g (Cmd.push_constant_buffer b d)).UpdatedParticleBuffer =
        g.UpdatedParticleBuffer ∧
      (exec cs g (Cmd.push_constant_buffer b d)).RenderParticleBuffer =
        g.RenderParticleBuffer ∧
      (exec cs g (Cmd.push_constant_buffer b d)).csSRV = g.csSRV ∧
      (exec cs g (Cmd.push_constant_buffer b d)).csUAV = g.csUAV ∧
      (exec cs g (Cmd.push_constant_buffer b d)).csCB = g.csCB := by
  simp only [exec]
  split
  · split <;> simp
  · simp

/-- The calls of `on_update`, with the uploaded records left abstract. -/
theorem on_update_cmds {F : Type} [Field F] (m : MathFns F) (inp : FrameInput F)
    (app : App F) :
    ∃ (pf : PerFrameCBData F) (sim : SimulationParameters F),
      (on_update m inp app).2 =
        [ Cmd.ShaderSet_bind,
          Cmd.push_constant_buffer BufferSite.PerFrame_CB (CBContents.perFrame pf),
          Cmd.push_constant_buffer BufferSite.SimulationParameters_CB (CBContents.simulation sim),
          Cmd.CSSetShaderResources 0 1 [some SRVSite.OldParticleBuffer_SRV],
          Cmd.CSSetUnorderedAccessViews 0 1 [some UAVSite.UpdatedParticleBuffer_UAV],
          Cmd.CSSetConstantBuffers 0 2
            [BufferSite.PerFrame_CB, BufferSite.SimulationParameters_CB],
          Cmd.Dispatch (toBits32 (align (on_update m inp app).1.m_particleCount 256) / 256) 1 1,
          Cmd.CopyResource BufferSite.OldParticleBuffer BufferSite.UpdatedParticleBuffer,
          Cmd.CopyResource BufferSite.RenderParticleBuffer BufferSite.UpdatedParticleBuffer,
          Cmd.CSSetShaderResources 0 1 [none],
          Cmd.CSSetUnorderedAccessViews 0 1 [none] ] :=
  ⟨_, _, rfl⟩

/-- C5: with the three particle buffers as explicit GPU state, after an
`on_update` step the old buffer and the render buffer both hold exactly the
contents of the updated buffer as the compute pass of that frame left it. The
compute pass (the commands up to and including `Dispatch`) leaves the old and
the render buffer untouched, and what it leaves in the updated buffer is the
stores of the shader threads, computed from the old buffer of the previous
frame (and the constants), performed on the updated buffer. -/
theorem on_update_buffers {F : Type} [Field F] (cs : ComputeShader F) (m : MathFns F)
    (inp : FrameInput F) (app : App F) (g : GPU F) :
    (execAll cs g (on_update m inp app).2).OldParticleBuffer =
        (execAll cs g (on_update m inp app).2).UpdatedParticleBuffer ∧
      (execAll cs g (on_update m inp app).2).RenderParticleBuffer =
        (execAll cs g (on_update m inp app).2).UpdatedParticleBuffer ∧
      (execAll cs g (on_update m inp app).2).UpdatedParticleBuffer =
        (execAll cs g (throughDispatch (on_update m inp app).2)).UpdatedParticleBuffer ∧
      (execAll cs g (throughDispatch (on_update m inp app).2)).UpdatedParticleBuffer =
        applyStores
          (dispatchStores cs (execAll cs g (throughDispatch (on_update m inp app).2)).csConstants
            g.OldParticleBuffer
            (toBits32 (align (on_update m inp app).1.m_particleCount 256) / 256) 1 1)
          g.UpdatedParticleBuffer ∧
      (execAll cs g (throughDispatch (on_update m inp app).2)).OldParticleBuffer =
        g.OldParticleBuffer ∧
      (execAll cs g (throughDispatch (on_update m inp app).2)).RenderParticleBuffer =
        g.RenderParticleBuffer := by
  obtain ⟨pf, sim, hc⟩ := on_update_cmds m inp app
  rw [hc]
  generalize toBits32 (align (on_update m inp app).1.m_particleCount 256) / 256 = x
  simp only [execAll, throughDispatch, Cmd.isDispatch, List.foldl_cons, List.foldl_nil,
    exec_ShaderSet_bind, Bool.false_eq_true, if_false, if_true]
  obtain ⟨a1, a2, a3, a4, a5, a6⟩ := exec_push_constant_buffer cs g BufferSite.PerFrame_CB
    (CBContents.perFrame pf)
  generalize exec cs g (Cmd.push_constant_buffer BufferSite.PerFrame_CB
    (CBContents.perFrame pf)) = g1 at a1 a2 a3 a4 a5 a6 ⊢
  obtain ⟨b1, b2, b3, b4, b5, b6⟩ := exec_push_constant_buffer cs g1
    BufferSite.SimulationParameters_CB (CBContents.simulation sim)
  generalize exec cs g1 (Cmd.push_constant_buffer BufferSite.SimulationParameters_CB
    (CBContents.simulation sim)) = g2 at b1 b2 b3 b4 b5 b6 ⊢
  simp only [exec_CSSetShaderResources, exec_CSSetUnorderedAccessViews,
    exec_CSSetConstantBuffers]
  rw [exec_Dispatch_bound cs _ x 1 1 SRVSite.OldParticleBuffer_SRV
    UAVSite.UpdatedParticleBuffer_UAV (by simp [bindSlots]) (by simp [bindSlots])]
  simp [exec_CopyResource, GPU.write, GPU.read, srvBuffer, uavBuffer, GPU.csConstants,
    GPU.constants, bindSlots, List.filterMap_cons, a1, a2, a3, b1, b2, b3]

/-! ## Initialisation -/

theorem ASSERT_bind_ok {α : Type} (c : Bool) (k : Unit → Except Fatal α) (a : α)
    (h : (ASSERT c >>= k) = Except.ok a) : c = true ∧ k () = Except.ok a := by
  cases c
  · simp [ASSERT, bind, Except.bind] at h
  · simpa [ASSERT, bind, Except.bind] using h

/-- The creation of the index buffer touches no pointer but
`m_pIndexBuffer`. -/
theorem init_index_buffer_pointers {F : Type} (pDevice : Device) (app : App F) :
    (init_index_buffer pDevice app).m_pPerFrame_CB = app.m_pPerFrame_CB ∧
      (init_index_buffer pDevice app).m_pSimulationParameters_CB =
        app.m_pSimulationParameters_CB ∧
      (init_index_buffer pDevice app).m_pOldParticleBuffer = app.m_pOldParticleBuffer ∧
      (init_index_buffer pDevice app).m_pUpdatedParticleBuffer = app.m_pUpdatedParticleBuffer ∧
      (init_index_buffer pDevice app).m_pRenderParticleBuffer = app.m_pRenderParticleBuffer ∧
      (init_index_buffer pDevice app).m_pRenderParticleBuffer_SRV =
        app.m_pRenderParticleBuffer_SRV ∧
      (init_index_buffer pDevice app).m_pOldParticleBuffer_SRV = app.m_pOldParticleBuffer_SRV ∧
      (init_index_buffer pDevice app).m_pUpdatedParticleBuffer_UAV =
        app.m_pUpdatedParticleBuffer_UAV := by
  unfold init_index_buffer
  rcases pDevice.CreateBuffer BufferSite.IndexBuffer with ⟨hr, p⟩
  dsimp only
  split_ifs <;> simp only [and_self]

/-- Every creation of `on_init` other than that of the index buffer is
fail-fast: when `on_init` returns, each of the other pointers is non-null. -/
theorem on_init_ok_pointers {F : Type} [Field F] (pDevice : Device) (rng : RandomSource F)
    (frameData : PerFrameCBData F) (simParams : SimulationParameters F) (app a : App F)
    (h : on_init pDevice rng frameData simParams app = Except.ok a) :
    a.m_pPerFrame_CB.isSome ∧ a.m_pSimulationParameters_CB.isSome ∧
      a.m_pOldParticleBuffer.isSome ∧ a.m_pUpdatedParticleBuffer.isSome ∧
      a.m_pRenderParticleBuffer.isSome ∧ a.m_pRenderParticleBuffer_SRV.isSome ∧
      a.m_pOldParticleBuffer_SRV.isSome ∧ a.m_pUpdatedParticleBuffer_UAV.isSome ∧
      a.m_pLinearMipSamplerState.isSome ∧ a.m_pAdditiveBlendState.isSome ∧
      a.m_pDisabledDepthTestState.isSome := by
  simp only [on_init, create_constant_buffer, create_structured_buffer_SRV,
    create_structured_buffer_UAV, create_basic_sampler, init_particle_buffers,
    create_default_structured_buffer, bind_assoc, pure_bind] at h
  obtain ⟨c1, h⟩ := ASSERT_bind_ok _ _ _ h
  obtain ⟨c2, h⟩ := ASSERT_bind_ok _ _ _ h
  obtain ⟨c3, h⟩ := ASSERT_bind_ok _ _ _ h
  obtain ⟨c4, h⟩ := ASSERT_bind_ok _ _ _ h
  obtain ⟨c5, h⟩ := ASSERT_bind_ok _ _ _ h
  obtain ⟨c6, h⟩ := ASSERT_bind_ok _ _ _ h
  obtain ⟨c7, h⟩ := ASSERT_bind_ok _ _ _ h
  obtain ⟨c8, h⟩ := ASSERT_bind_ok _ _ _ h
  obtain ⟨c9, h⟩ := ASSERT_bind_ok _ _ _ h
  obtain ⟨c10, h⟩ := ASSERT_bind_ok _ _ _ h
  obtain ⟨c11, h⟩ := ASSERT_bind_ok _ _ _ h
  obtain rfl := Except.ok.inj h
  simp only [Bool.and_eq_true] at c1 c2 c3 c4 c5 c6 c7 c8 c9 c10 c11
  simp only [init_index_buffer_pointers]
  exact ⟨c1.2, c2.2, c3.2, c4.2, c5.2, c6.2, c7.2, c8.2, c9.2, c10.2, c11.2⟩

/-- C6 (evaluation at the failing input): on a device whose index-buffer
creation fails with `E_OUTOFMEMORY` and a null pointer, `on_init` hits no
assertion: it runs to its end (the depth-stencil state, created last, is set)
and leaves `m_pIndexBuffer` null; on a device whose sampler creation fails the
same way, the sibling path `create_basic_sampler` stops with the fatal
assertion. -/
theorem on_init_continues_with_null_index_buffer :
    (on_init indexBufferFailsDevice zeroRandom zeroFrameData staleSimParams
        freshApp).toOption.map (fun a => (a.m_pIndexBuffer, a.m_pDisabledDepthTestState)) =
        some (none, some 7) ∧
      (on_init samplerFailsDevice zeroRandom zeroFrameData staleSimParams
        freshApp).toOption.map (fun a => (a.m_pIndexBuffer, a.m_pDisabledDepthTestState)) =
        none := by
  constructor
  · simp [on_init, create_constant_buffer, create_structured_buffer_SRV,
      create_structured_buffer_UAV, create_basic_sampler, init_particle_buffers,
      create_default_structured_buffer, init_index_buffer, ASSERT, FAILED,
      indexBufferFailsDevice, goodDevice, E_OUTOFMEMORY, bind, Except.bind, pure, Except.pure,
      Except.toOption, freshApp, App.construct]
  · simp [on_init, create_constant_buffer, create_structured_buffer_SRV,
      create_structured_buffer_UAV, create_basic_sampler, init_particle_buffers,
      create_default_structured_buffer, init_index_buffer, ASSERT, FAILED,
      samplerFailsDevice, goodDevice, E_OUTOFMEMORY, bind, Except.bind, pure, Except.pure,
      Except.toOption]

/-! ## Blending -/

/-- The blend equation of the state created by `on_init`: the source is scaled
by its alpha and the destination by one minus that alpha. -/
theorem blendColour_blendDesc {F : Type} [Field F] (src srcAlpha dst : F) :
    blendColour blendDesc.RenderTarget0 src srcAlpha dst =
      src * srcAlpha + dst * (1 - srcAlpha) := by
  simp [blendColour, blendDesc, blendFactor]

/-- C7 (evaluation at the failing input): the blend state created by `on_init`
has blending enabled and operation ADD, but its destination factor is
`INV_SRC_ALPHA`, not `ONE`; for an opaque black source pixel (colour `0`,
alpha `1`) over a destination of colour `1` the output colour is `0`, less than
the destination colour. -/
theorem blend_state_is_not_additive :
    blendDesc.RenderTarget0.BlendEnable = true ∧
      blendDesc.RenderTarget0.BlendOp = D3D11_BLEND_OP.D3D11_BLEND_OP_ADD ∧
      blendDesc.RenderTarget0.SrcBlend = D3D11_BLEND.D3D11_BLEND_SRC_ALPHA ∧
      blendDesc.RenderTarget0.DestBlend = D3D11_BLEND.D3D11_BLEND_INV_SRC_ALPHA ∧
      blendDesc.RenderTarget0.DestBlend ≠ D3D11_BLEND.D3D11_BLEND_ONE ∧
      blendColour blendDesc.RenderTarget0 (0 : ℚ) 1 1 = 0 ∧
      blendColour blendDesc.RenderTarget0 (0 : ℚ) 1 1 < 1 := by
  refine ⟨rfl, rfl, rfl, rfl, by decide, ?_, ?_⟩ <;> rw [blendColour_blendDesc] <;> norm_num

/-! ## The uploaded simulation parameters -/

/-- The one upload of simulation parameters in a frame carries the particle
count the record already held; the slider value does not enter it. -/
theorem uploadedSimulationParameters_on_update {F : Type} [Field F] (m : MathFns F)
    (inp : FrameInput F) (app : App F) :
    (uploadedSimulationParameters (on_update m inp app).2).map
        (fun d => d.m_particleCount) = [app.m_simulationParameters.m_particleCount] := by
  simp [on_update, uploadedSimulationParameters]

/-- C9 (evaluation at the failing input): after `on_init` with a local
`simParams` whose count field happens to hold `123`, a frame with the slider at
`1000` uploads simulation parameters whose `m_particleCount` is `123`, while
the count that sizes the dispatch and the draw call is `1000`. -/
theorem uploaded_particle_count_ignores_slider :
    (on_init goodDevice zeroRandom zeroFrameData staleSimParams freshApp).toOption.map
        (fun a =>
          ((uploadedSimulationParameters (on_update sampleMath (sliderFrame 1000) a).2).map
              (fun d => d.m_particleCount),
            (on_update sampleMath (sliderFrame 1000) a).1.m_particleCount,
            dispatchArgs (on_update sampleMath (sliderFrame 1000) a).2,
            drawIndexedArgs (on_render (on_update sampleMath (sliderFrame 1000) a).1))) =
      some ([123], 1000, [(4, 1, 1)], [(6000, 0, 0)]) := by
  have h4 : toBits32 (align 1000 256) / 256 = 4 := by decide
  have h6 : toBits32 (s32_mul 1000 6) = 6000 := by decide
  simp [on_init, create_constant_buffer, create_structured_buffer_SRV,
    create_structured_buffer_UAV, create_basic_sampler, init_particle_buffers,
    create_default_structured_buffer, init_index_buffer, ASSERT, FAILED,
    goodDevice, bind, Except.bind, pure, Except.pure, Except.toOption,
    uploadedSimulationParameters_on_update, dispatchArgs_on_update, drawIndexedArgs_on_render,
    staleSimParams]
  simp [on_update, sliderFrame, h4, h6]

/-! ## The emitter location -/

/-- C10: over the real numbers, with `sinf`, `cosf` the real sine and cosine,
the emitter location `1.0 * (sin x * cos y, sin x * sin y, cos x)` has Euclidean
norm exactly `1` for every pair of polar angles `(x, y)`, so it lies within the
unit sphere centred at the origin; and this is the location `on_update` stores,
for the polar angles `XM_2PI * randv2()`. -/
theorem emitterLocation_unit_norm :
    (∀ x y : ℝ,
      Real.sqrt (v3.normSq (emitterLocation ⟨Real.sin, Real.cos, 2 * Real.pi⟩ ⟨x, y⟩)) = 1 ∧
      Real.sqrt (v3.normSq (emitterLocation ⟨Real.sin, Real.cos, 2 * Real.pi⟩ ⟨x, y⟩)) ≤ 1) ∧
      ∀ (inp : FrameInput ℝ) (app : App ℝ),
        (on_update ⟨Real.sin, Real.cos, 2 * Real.pi⟩ inp app).1.m_simulationParameters.m_emitterLocation =
          emitterLocation ⟨Real.sin, Real.cos, 2 * Real.pi⟩
            ⟨2 * Real.pi * inp.randv2.x, 2 * Real.pi * inp.randv2.y⟩ := by
  have key : ∀ x y : ℝ,
      v3.normSq (emitterLocation ⟨Real.sin, Real.cos, 2 * Real.pi⟩ ⟨x, y⟩) = 1 := by
    intro x y
    simp only [emitterLocation, v3.normSq, v3.smul, one_mul]
    have h1 := Real.sin_sq_add_cos_sq x
    have h2 := Real.sin_sq_add_cos_sq y
    nlinarith [h1, h2]
  refine ⟨fun x y => ?_, fun inp app => rfl⟩
  rw [key x y]
  simp


/-! ## The draw call and the index data -/

theorem on_update_m_Indices {F : Type} [Field F] (m : MathFns F) (inp : FrameInput F)
    (app : App F) : (on_update m inp app).1.m_Indices = app.m_Indices := rfl

/-- Every position of the index data created by `init_index_buffer` holds a
vertex of the quad the position belongs to: position `p` holds a value of at
most `4 * (p / 6) + 3`. -/
theorem init_index_buffer_entry_bound {F : Type} (pDevice : Device) (app : App F) (p : Nat)
    (hp : p < 3000000) :
    (init_index_buffer pDevice app).m_Indices.length = 3000000 ∧
      ∃ v : Nat, (init_index_buffer pDevice app).m_Indices[p]? = some v ∧
        v ≤ 4 * (p / 6) + 3 := by
  rw [init_index_buffer_m_Indices]
  unfold init_index_buffer_fill
  have hlen : (vector_resize 0 app.m_Indices (u32 (6 * m_maxNumParticles))).length = 3000000 := by
    rw [vector_resize_length]
    decide
  obtain ⟨h1, h2⟩ := init_index_buffer_loop
    (vector_resize 0 app.m_Indices (u32 (6 * m_maxNumParticles)))
    (by omega) m_maxNumParticles (by rw [hlen]; decide)
  refine ⟨by rw [h1, hlen], ?_⟩
  have hi : p / 6 < m_maxNumParticles := by
    unfold m_maxNumParticles
    omega
  obtain ⟨q0, q1, q2, q3, q4, q5⟩ := h2 (p / 6) hi
  have hsplit : p = 6 * (p / 6) + p % 6 := (Nat.div_add_mod p 6).symm
  have hr : p % 6 < 6 := Nat.mod_lt p (by decide)
  generalize p / 6 = i at q0 q1 q2 q3 q4 q5 hsplit ⊢
  generalize p % 6 = j at hsplit hr
  subst hsplit
  have hj : j = 0 ∨ j = 1 ∨ j = 2 ∨ j = 3 ∨ j = 4 ∨ j = 5 := by omega
  rcases hj with rfl | rfl | rfl | rfl | rfl | rfl
  · exact ⟨_, q0, by omega⟩
  · exact ⟨_, q1, by omega⟩
  · exact ⟨_, q2, by omega⟩
  · exact ⟨_, q3, by omega⟩
  · exact ⟨_, q4, by omega⟩
  · exact ⟨_, q5, by omega⟩

/-- C11: for every particle count `0 ≤ n ≤ 500000`, with the index data that
`init_index_buffer` created, the draw call of `on_render` stays inside the index
buffer and inside the first `n` quads: the product `n * 6` fits an `s32`, the
one `DrawIndexed` call has index count `6 * n`, this is at most the
`6 * 500000` indices the buffer holds, and each of the first `6 * n` index
values is less than `4 * n`. -/
theorem draw_call_within_index_buffer {F : Type} (pDevice : Device) (app0 app : App F)
    (n : Int) (h0 : 0 ≤ n) (h1 : n ≤ 500000) (hn : app.m_particleCount = n)
    (hidx : app.m_Indices = (init_index_buffer pDevice app0).m_Indices) :
    inS32 (n * 6) ∧
      ∃ k : Nat, drawIndexedArgs (on_render app) = [(k, 0, 0)] ∧ (k : Int) = 6 * n ∧
        app.m_Indices.length = 6 * 500000 ∧ k ≤ app.m_Indices.length ∧
        ∀ p : Nat, p < k → ∃ v : Nat, app.m_Indices[p]? = some v ∧ (v : Int) < 4 * n := by
  obtain ⟨c, rfl⟩ := Int.eq_ofNat_of_zero_le h0
  have hk : toBits32 (s32_mul app.m_particleCount 6) = 6 * c := by
    rw [hn]
    unfold s32_mul
    have e : (c : Int) * 6 = ((6 * c : Nat) : Int) := by push_cast; ring
    rw [e, toBits32_natCast _ (by omega), toBits32_ofBits32 _ (by omega)]
  have hlen := (init_index_buffer_entry_bound pDevice app0 0 (by decide)).1
  refine ⟨by unfold inS32; omega, 6 * c, ?_, by push_cast; ring, ?_, ?_, ?_⟩
  · rw [drawIndexedArgs_on_render, hk]
  · rw [hidx, hlen]
  · rw [hidx, hlen]
    omega
  · intro p hp
    obtain ⟨_, v, hv, hb⟩ := init_index_buffer_entry_bound pDevice app0 p (by omega)
    refine ⟨v, by rw [hidx]; exact hv, ?_⟩
    have : p / 6 < c := by omega
    omega

/-- Witness for C11: the application after the index buffer was created on the
all-succeeding device and the slider was set to `1000`. -/
theorem draw_call_within_index_buffer_witness :
    (0 : Int) ≤ 1000 ∧ (1000 : Int) ≤ 500000 ∧
      (on_update sampleMath (sliderFrame 1000)
        (init_index_buffer goodDevice freshApp)).1.m_particleCount = 1000 ∧
      (on_update sampleMath (sliderFrame 1000) (init_index_buffer goodDevice freshApp)).1.m_Indices =
        (init_index_buffer goodDevice freshApp).m_Indices ∧
      (inS32 ((1000 : Int) * 6) ∧
        ∃ k : Nat,
          drawIndexedArgs (on_render (on_update sampleMath (sliderFrame 1000)
            (init_index_buffer goodDevice freshApp)).1) = [(k, 0, 0)] ∧
          (k : Int) = 6 * 1000 ∧
          (on_update sampleMath (sliderFrame 1000)
            (init_index_buffer goodDevice freshApp)).1.m_Indices.length = 6 * 500000 ∧
          k ≤ (on_update sampleMath (sliderFrame 1000)
            (init_index_buffer goodDevice freshApp)).1.m_Indices.length ∧
          ∀ p : Nat, p < k → ∃ v : Nat,
            (on_update sampleMath (sliderFrame 1000)
              (init_index_buffer goodDevice freshApp)).1.m_Indices[p]? = some v ∧
            (v : Int) < 4 * 1000) :=
  ⟨by decide, by decide, rfl, on_update_m_Indices _ _ _,
    draw_call_within_index_buffer goodDevice freshApp
      (on_update sampleMath (sliderFrame 1000) (init_index_buffer goodDevice freshApp)).1 1000
      (by decide) (by decide) rfl (on_update_m_Indices _ _ _)⟩

end Lorenz
